import Mathlib

/-!
Shallow embedding of `src/types.rs` of rusqlite: the `ToSql` (bind-parameter)
and `FromSql` (column-result) conversion layer between host values and the
SQLite statement API.

Modelling conventions:
- A byte is a `Nat` (values ≥ 0x100 never pass the UTF-8 validity check and
  never arise from the embedded code).
- The opaque `*mut sqlite3_stmt` pointer is passed through unchanged by every
  function in `types.rs`; it carries no information at this layer and is
  omitted.  The `col : Int` argument is kept.
- A `bind_parameter` implementation is embedded as the FFI bind call it
  issues (`BindCall`), or `none` when the Rust code fails the task before
  reaching the FFI (the `with_c_str` interior-NUL check).
- The engine side (the `ffi::sqlite3_*` primitives, which live outside
  `src/`) is modelled from the spec: a bind call produces a stored
  `SqlValue` plus a status code, and the column accessors read a stored
  `SqlValue`.
- Rust task failure (`fail!` / a failed `assert!`) is modelled as `none` in
  an `Option` result.
-/

namespace Rusqlite

/-- SQLite fundamental-type code for INTEGER. -/
def SQLITE_INTEGER : Int := 1
/-- SQLite fundamental-type code for FLOAT. -/
def SQLITE_FLOAT : Int := 2
/-- SQLite fundamental-type code for TEXT. -/
def SQLITE_TEXT : Int := 3
/-- SQLite fundamental-type code for BLOB. -/
def SQLITE_BLOB : Int := 4
/-- SQLite fundamental-type code for NULL, compared against by
`FromSql for Option<T>` (types.rs line 115). -/
def SQLITE_NULL : Int := 5
/-- Success status code returned by the bind primitives. -/
def SQLITE_OK : Int := 0

/-- The fifth argument of `sqlite3_bind_text` / `sqlite3_bind_blob`: either
the SQLITE_STATIC sentinel (engine may alias the caller's buffer) or the
SQLITE_TRANSIENT sentinel (engine must copy the bytes immediately).  The
Rust code passes `Some(ffi::SQLITE_TRANSIENT())`. -/
inductive Destructor where
  | static
  | transient
deriving DecidableEq, Repr

/-- One call to an `ffi::sqlite3_bind_*` primitive, with the arguments the
Rust code passes (the statement pointer omitted).  For `bindText` the buffer
is the NUL-terminated C string produced by `with_c_str`; for `bindBlob` it
is the byte slice behind `self.as_ptr()`. -/
inductive BindCall where
  | bindInt (col : Int) (v : Int)
  | bindInt64 (col : Int) (v : Int)
  | bindDouble (col : Int) (v : Int)
  | bindText (col : Int) (buf : List Nat) (len : Int) (d : Destructor)
  | bindBlob (col : Int) (buf : List Nat) (len : Int) (d : Destructor)
  | bindNull (col : Int)
deriving DecidableEq, Repr

/-- The destructor flag a bind call hands the engine, when the call carries
a caller-owned buffer (text or blob). -/
def BindCall.dtor : BindCall → Option Destructor
  | .bindText _ _ _ d => some d
  | .bindBlob _ _ _ d => some d
  | _ => none

/-- The explicit length argument of a buffer-carrying bind call. -/
def BindCall.lenArg : BindCall → Option Int
  | .bindText _ _ len _ => some len
  | .bindBlob _ _ len _ => some len
  | _ => none

/-- Rust's `n as c_int` for a `uint` value: reduce modulo 2^32 and
reinterpret as a signed 32-bit value (types.rs line 46 casts
`self.len() as c_int`). -/
def asCInt (n : Nat) : Int :=
  if n % 2 ^ 32 < 2 ^ 31 then ((n % 2 ^ 32 : Nat) : Int)
  else ((n % 2 ^ 32 : Nat) : Int) - 2 ^ 32

/-- Is `b` a UTF-8 continuation byte (0x80–0xBF)? -/
def isCont (b : Nat) : Bool := decide (0x80 ≤ b ∧ b ≤ 0xBF)

/-- UTF-8 validity of a byte sequence (RFC 3629: no overlongs, no
surrogates, no code points above U+10FFFF).  This is the check performed by
`str::from_utf8` underneath `CString::as_str` (types.rs line 94). -/
def validUtf8 : List Nat → Bool
  | [] => true
  | b :: rest =>
    if b ≤ 0x7F then validUtf8 rest
    else if 0xC2 ≤ b ∧ b ≤ 0xDF then
      match rest with
      | c1 :: rest2 => isCont c1 && validUtf8 rest2
      | [] => false
    else if 0xE0 ≤ b ∧ b ≤ 0xEF then
      match rest with
      | c1 :: c2 :: rest2 =>
        (if b = 0xE0 then decide (0xA0 ≤ c1 ∧ c1 ≤ 0xBF)
         else if b = 0xED then decide (0x80 ≤ c1 ∧ c1 ≤ 0x9F)
         else isCont c1) && isCont c2 && validUtf8 rest2
      | _ => false
    else if 0xF0 ≤ b ∧ b ≤ 0xF4 then
      match rest with
      | c1 :: c2 :: c3 :: rest2 =>
        (if b = 0xF0 then decide (0x90 ≤ c1 ∧ c1 ≤ 0xBF)
         else if b = 0xF4 then decide (0x80 ≤ c1 ∧ c1 ≤ 0x8F)
         else isCont c1) && isCont c2 && isCont c3 && validUtf8 rest2
      | _ => false
    else false

/-- A Rust `&str` / `String` value: its UTF-8 byte content.  The validity
invariant is guaranteed by the Rust type. -/
structure RustStr where
  bytes : List Nat
  valid : validUtf8 bytes = true
deriving DecidableEq

/-- A value stored in a parameter slot / result column of the engine: the
dynamic SQLite type system (integer, float, text, blob, null).  The float
payload is kept abstract as an `Int`; no claim depends on float values. -/
inductive SqlValue where
  | integer (v : Int)
  | float (v : Int)
  | text (bytes : List Nat)
  | blob (bytes : List Nat)
  | null
deriving DecidableEq, Repr

/-- Modelled from the spec: the engine's dynamic-storage-type probe
`ffi::sqlite3_column_type`, returning the fundamental-type constant of the
value the column holds. -/
def sqlite3_column_type : SqlValue → Int
  | .integer _ => SQLITE_INTEGER
  | .float _ => SQLITE_FLOAT
  | .text _ => SQLITE_TEXT
  | .blob _ => SQLITE_BLOB
  | .null => SQLITE_NULL

/-- ASCII decimal digits of a natural number. -/
def natToAscii (n : Nat) : List Nat := (Nat.toDigits 10 n).map Char.toNat

/-- ASCII decimal rendering of an integer (used only for the engine's
numeric-to-text coercion, which no claim exercises). -/
def intToAscii (i : Int) : List Nat :=
  if i < 0 then 45 :: natToAscii i.natAbs else natToAscii i.toNat

/-- Modelled from the spec: `ffi::sqlite3_bind_text` / `_blob` / `_null` /
`_int` / `_int64` / `_double` applied to a parameter slot.  Returns the
`SqlValue` the engine stores in the slot and the engine status code.  A
text bind with length `-1` reads the supplied buffer up to its first NUL
terminator; a blob bind reads exactly `len` bytes (none when `len` is
negative).  Allocation failure is not modelled, so every bind succeeds with
`SQLITE_OK`. -/
def applyBindCall : BindCall → SqlValue × Int
  | .bindInt _ v => (.integer v, SQLITE_OK)
  | .bindInt64 _ v => (.integer v, SQLITE_OK)
  | .bindDouble _ v => (.float v, SQLITE_OK)
  | .bindText _ buf len _ =>
      (.text (if len = -1 then buf.takeWhile (fun b => b != 0) else buf.take len.toNat),
       SQLITE_OK)
  | .bindBlob _ buf len _ => (.blob (buf.take len.toNat), SQLITE_OK)
  | .bindNull _ => (.null, SQLITE_OK)

/-- The value an applied bind call stores in its slot. -/
def bindStore (c : BindCall) : SqlValue := (applyBindCall c).1

/-- Modelled from the spec: `ffi::sqlite3_column_text`.  Returns `none` for
the C-level null pointer (a NULL column), otherwise the NUL-terminated byte
buffer the returned pointer addresses.  The engine guarantees a terminator
after the value's bytes; numeric values are coerced to their decimal text. -/
def sqlite3_column_text : SqlValue → Option (List Nat)
  | .null => none
  | .text bytes => some (bytes ++ [0])
  | .blob bytes => some (bytes ++ [0])
  | .integer i => some (intToAscii i ++ [0])
  | .float i => some (intToAscii i ++ [0])

/-- Modelled from the spec: `ffi::sqlite3_column_blob`.  Returns `none` for
the C-level null pointer (a NULL column or empty blob read), otherwise the
value's raw bytes. -/
def sqlite3_column_blob : SqlValue → Option (List Nat)
  | .null => none
  | .blob bytes => some bytes
  | .text bytes => some bytes
  | .integer i => some (intToAscii i)
  | .float i => some (intToAscii i)

/-- Modelled from the spec: `ffi::sqlite3_column_bytes`, the byte length of
the column value read as a blob.  The engine never reports a negative
length. -/
def sqlite3_column_bytes : SqlValue → Int
  | .null => 0
  | .blob bytes => (bytes.length : Int)
  | .text bytes => (bytes.length : Int)
  | .integer i => ((intToAscii i).length : Int)
  | .float i => ((intToAscii i).length : Int)

/-- Modelled from the spec: `ffi::sqlite3_column_int64`.  NULL reads as 0;
the engine's best-effort numeric parse of text/blob content is left
unspecified by the spec and modelled as 0 (no claim depends on it). -/
def sqlite3_column_int64 : SqlValue → Int
  | .integer v => v
  | .float v => v
  | _ => 0

/-- Embeds `impl ToSql for i64` (types.rs line 26, via `raw_to_impl!`):
issue `ffi::sqlite3_bind_int64(stmt, col, *self)`. -/
def i64BindParameter (v : Int) (col : Int) : Option BindCall :=
  some (.bindInt64 col v)

/-- Embeds `impl<'a> ToSql for &'a str::bind_parameter` (types.rs lines
29–35): `with_c_str` fails the task when the string holds an interior NUL
byte (modelled as `none`); otherwise it passes the NUL-terminated C string
to `ffi::sqlite3_bind_text` with length `-1` and `SQLITE_TRANSIENT`. -/
def strBindParameter (s : RustStr) (col : Int) : Option BindCall :=
  if s.bytes.contains 0 then none
  else some (.bindText col (s.bytes ++ [0]) (-1) .transient)

/-- Embeds `impl ToSql for String::bind_parameter` (types.rs lines 37–41):
delegates to the `&str` implementation via `as_slice`. -/
def stringBindParameter (s : RustStr) (col : Int) : Option BindCall :=
  strBindParameter s col

/-- Embeds `impl<'a> ToSql for &'a [u8]::bind_parameter` (types.rs lines
43–49): `ffi::sqlite3_bind_blob` with the slice's pointer, its length cast
to `c_int`, and `SQLITE_TRANSIENT`. -/
def sliceBindParameter (b : List Nat) (col : Int) : Option BindCall :=
  some (.bindBlob col b (asCInt b.length) .transient)

/-- Embeds `impl ToSql for Vec<u8>::bind_parameter` (types.rs lines 51–55):
delegates to the `&[u8]` implementation via `as_slice`. -/
def vecBindParameter (b : List Nat) (col : Int) : Option BindCall :=
  sliceBindParameter b col

/-- Embeds `impl<T: ToSql> ToSql for Option<T>::bind_parameter` (types.rs
lines 57–64), generic over the inner type's binder: `None` issues
`ffi::sqlite3_bind_null`, `Some(t)` delegates to `t.bind_parameter`. -/
def optionBindParameter (bind : α → Int → Option BindCall)
    (v : Option α) (col : Int) : Option BindCall :=
  match v with
  | none => some (.bindNull col)
  | some t => bind t col

/-- Embeds `impl ToSql for Null::bind_parameter` (types.rs lines 68–72):
issue `ffi::sqlite3_bind_null`. -/
def nullBindParameter (col : Int) : Option BindCall :=
  some (.bindNull col)

/-- The bytes `CString::new(ptr, false)` exposes: the buffer up to (not
including) its first NUL terminator (C `strlen` semantics). -/
def cStrBytes (buf : List Nat) : List Nat := buf.takeWhile (fun b => b != 0)

/-- The body of `impl FromSql for String::column_result` (types.rs lines
88–100) after the `sqlite3_column_text` call: a null pointer yields `""`;
otherwise `CString::new(..).as_str()` reads up to the NUL terminator and
checks UTF-8 validity, `None` (invalid UTF-8) yielding `""`.  The result
string is represented by its byte content. -/
def stringColumnResultRaw (c_text : Option (List Nat)) : List Nat :=
  match c_text with
  | none => []
  | some buf =>
    let bytes := cStrBytes buf
    if validUtf8 bytes then bytes else []

/-- Embeds `impl FromSql for String::column_result` (types.rs lines
88–100). -/
def stringColumnResult (v : SqlValue) : List Nat :=
  stringColumnResultRaw (sqlite3_column_text v)

/-- The body of `impl FromSql for Vec<u8>::column_result` (types.rs lines
102–111) after the two accessor calls: `assert!(len >= 0)` aborts the task
on a negative reported length (modelled as `none`); otherwise
`vec::raw::from_buf` copies `len` bytes from the blob pointer. -/
def vecColumnResultRaw (c_blob : Option (List Nat)) (len : Int) : Option (List Nat) :=
  if 0 ≤ len then some ((c_blob.getD []).take len.toNat) else none

/-- Embeds `impl FromSql for Vec<u8>::column_result` (types.rs lines
102–111). -/
def vecColumnResult (v : SqlValue) : Option (List Nat) :=
  vecColumnResultRaw (sqlite3_column_blob v) (sqlite3_column_bytes v)

/-- Embeds `impl FromSql for i64::column_result` (types.rs line 85, via
`raw_from_impl!`): `ffi::sqlite3_column_int64(stmt, col)`. -/
def i64ColumnResult (v : SqlValue) : Int := sqlite3_column_int64 v

/-- Embeds `impl<T: FromSql> FromSql for Option<T>::column_result`
(types.rs lines 113–121), generic over the inner type's decoder: probe
`sqlite3_column_type` first; a NULL column yields `None`, anything else
delegates to `T`'s decoder and wraps the result in `Some`. -/
def optionColumnResult (dec : SqlValue → β) (v : SqlValue) : Option β :=
  if sqlite3_column_type v = SQLITE_NULL then none
  else some (dec v)

/-- One call to an `ffi::sqlite3_column_*` accessor (arguments omitted:
every accessor receives the same `(stmt, col)` pair). -/
inductive ColCall where
  | colType
  | colText
  | colBlob
  | colBytes
  | colInt
  | colInt64
  | colDouble
deriving DecidableEq, Repr

/-- Call-trace instrumentation of `impl<T: FromSql> FromSql for
Option<T>::column_result` (types.rs lines 113–121): the inner decoder
reports the accessor calls it makes, and the wrapper records its own
`sqlite3_column_type` probe followed by whatever the inner decoder
invoked.  The branch structure is identical to `optionColumnResult`. -/
def optionColumnResultT (dec : SqlValue → β × List ColCall)
    (v : SqlValue) : Option β × List ColCall :=
  if sqlite3_column_type v = SQLITE_NULL then (none, [ColCall.colType])
  else (some (dec v).1, ColCall.colType :: (dec v).2)

/-- Call-trace instrumentation of `impl FromSql for i64::column_result`:
it makes exactly one `sqlite3_column_int64` call. -/
def i64ColumnResultT (v : SqlValue) : Int × List ColCall :=
  (sqlite3_column_int64 v, [ColCall.colInt64])

/-- Encode a text value at a parameter slot and decode the stored column
back as a `String` (the insert/select round trip of the spec, §8). -/
def roundTripText (s : RustStr) (col : Int) : Option (List Nat) :=
  (strBindParameter s col).map (fun c => stringColumnResult (bindStore c))

/-- Encode a byte sequence at a parameter slot and decode the stored column
back as a `Vec<u8>` (the insert/select round trip of the spec, §8). -/
def roundTripBlob (b : List Nat) (col : Int) : Option (Option (List Nat)) :=
  (sliceBindParameter b col).map (fun c => vecColumnResult (bindStore c))

/-- Encode a value with a given binder and decode the stored column with a
given decoder: the generic direct (non-optional) round trip. -/
def directRoundTrip (bind : α → Int → Option BindCall) (dec : SqlValue → β)
    (v : α) (col : Int) : Option β :=
  (bind v col).map (fun c => dec (bindStore c))

/-- Encode an optional value with the `Option<T>` binder and decode the
stored column with the `Option<T>` decoder. -/
def optionRoundTrip (bind : α → Int → Option BindCall) (dec : SqlValue → β)
    (ov : Option α) (col : Int) : Option (Option β) :=
  (optionBindParameter bind ov col).map (fun c => optionColumnResult dec (bindStore c))

/-! ### Helper lemmas -/

theorem takeWhile_append_sentinel (l : List Nat) (h : l.contains 0 = false) :
    (l ++ [0]).takeWhile (fun b => b != 0) = l := by
  induction l with
  | nil => simp [List.takeWhile]
  | cons b t ih =>
    simp only [List.contains_cons, Bool.or_eq_false_iff, beq_eq_false_iff_ne] at h
    simp only [List.cons_append, List.takeWhile_cons]
    have hb : (b != 0) = true := by
      simp [bne_iff_ne]
      exact fun hb0 => h.1 hb0.symm
    rw [hb]
    simp only [if_true]
    rw [ih]
    have := h.2
    simp only [List.contains_cons] at *
    revert this
    simp [List.contains]

theorem sqlite3_column_type_eq_null_iff (v : SqlValue) :
    sqlite3_column_type v = SQLITE_NULL ↔ v = SqlValue.null := by
  cases v <;> simp [sqlite3_column_type, SQLITE_INTEGER, SQLITE_FLOAT,
    SQLITE_TEXT, SQLITE_BLOB, SQLITE_NULL]

theorem asCInt_of_lt (n : Nat) (h : n < 2 ^ 31) : asCInt n = (n : Int) := by
  have h32 : n % 2 ^ 32 = n := Nat.mod_eq_of_lt (lt_trans h (by norm_num))
  rw [asCInt, h32, if_pos h]

/-! ### Claims -/

/-- C1: every bind of a buffer-backed value — text via the `&str` or
`String` encoder, blob via the `&[u8]` or `Vec<u8>` encoder — hands the
engine the `SQLITE_TRANSIENT` (copy-now) destructor flag whenever it
reaches the FFI at all. -/
theorem text_blob_binds_pass_transient (s : RustStr) (b : List Nat) (col : Int) :
    (∀ c, strBindParameter s col = some c → BindCall.dtor c = some Destructor.transient)
    ∧ (∀ c, stringBindParameter s col = some c → BindCall.dtor c = some Destructor.transient)
    ∧ (∀ c, sliceBindParameter b col = some c → BindCall.dtor c = some Destructor.transient)
    ∧ (∀ c, vecBindParameter b col = some c → BindCall.dtor c = some Destructor.transient) := by
  refine ⟨?_, ?_, ?_, ?_⟩ <;> intro c hc
  · simp [strBindParameter] at hc
    obtain ⟨-, rfl⟩ := hc
    rfl
  · simp [stringBindParameter, strBindParameter] at hc
    obtain ⟨-, rfl⟩ := hc
    rfl
  · simp [sliceBindParameter] at hc
    obtain rfl := hc
    rfl
  · simp [vecBindParameter, sliceBindParameter] at hc
    obtain rfl := hc
    rfl

/-- C1 witness: the transient flag on the concrete binds of `"hi"` and
`[1, 2]`. -/
theorem text_blob_binds_pass_transient_witness :
    BindCall.dtor (BindCall.bindText 1 [104, 105, 0] (-1) Destructor.transient)
      = some Destructor.transient
    ∧ BindCall.dtor (BindCall.bindBlob 1 [1, 2] (asCInt 2) Destructor.transient)
      = some Destructor.transient :=
  ⟨(text_blob_binds_pass_transient ⟨[104, 105], by decide⟩ [1, 2] 1).1 _ (by decide),
   (text_blob_binds_pass_transient ⟨[104, 105], by decide⟩ [1, 2] 1).2.2.1 _ (by decide)⟩

/-- C5: the `Option<T>` encoder binds SQL null at the given slot for `None`
and issues exactly the bind call of the inner encoder (hence the same
engine status code) for `Some(v)`. -/
theorem option_bind_null_or_delegate (bind : α → Int → Option BindCall)
    (v : α) (col : Int) :
    optionBindParameter bind none col = some (BindCall.bindNull col)
    ∧ optionBindParameter bind (some v) col = bind v col
    ∧ (optionBindParameter bind (some v) col).map (fun c => (applyBindCall c).2)
        = (bind v col).map (fun c => (applyBindCall c).2) :=
  ⟨rfl, rfl, rfl⟩

/-- C2: decoding an optional-of-T first probes the column's dynamic storage
type; a NULL report yields `None` with no further accessor call (the inner
decoder is never invoked, whatever it is); otherwise the inner decoder runs
and its result is wrapped in `Some`. -/
theorem option_decode_probes_type_first (dec : SqlValue → β × List ColCall)
    (v : SqlValue) :
    (sqlite3_column_type v = SQLITE_NULL →
      optionColumnResultT dec v = (none, [ColCall.colType]))
    ∧ (sqlite3_column_type v ≠ SQLITE_NULL →
      optionColumnResultT dec v = (some (dec v).1, ColCall.colType :: (dec v).2)) := by
  constructor <;> intro h <;> simp [optionColumnResultT, h]

/-- C2 witness: a NULL column decodes to `None` with only the type probe in
the trace, and an integer column delegates to the `i64` decoder. -/
theorem option_decode_probes_type_first_witness :
    optionColumnResultT i64ColumnResultT SqlValue.null = (none, [ColCall.colType])
    ∧ optionColumnResultT i64ColumnResultT (SqlValue.integer 7)
        = (some 7, [ColCall.colType, ColCall.colInt64]) :=
  ⟨(option_decode_probes_type_first i64ColumnResultT SqlValue.null).1 (by decide),
   (option_decode_probes_type_first i64ColumnResultT (SqlValue.integer 7)).2 (by decide)⟩

/-- C6: when the engine's text accessor returns the null pointer, the
`String` decoder produces the empty string (its result type has no error
path). -/
theorem null_text_pointer_decodes_empty (v : SqlValue)
    (h : sqlite3_column_text v = none) : stringColumnResult v = [] := by
  simp [stringColumnResult, h, stringColumnResultRaw]

/-- C6 witness: a NULL column has a null text pointer and decodes to the
empty string. -/
theorem null_text_pointer_decodes_empty_witness :
    sqlite3_column_text SqlValue.null = none
    ∧ stringColumnResult SqlValue.null = [] :=
  ⟨rfl, null_text_pointer_decodes_empty SqlValue.null rfl⟩

/-- C7: the `Vec<u8>` decoder aborts (failed `assert!`) when the engine
reports a negative byte length; when the reported length is non-negative
and the buffer holds at least that many bytes, it returns exactly that many
bytes.  The modelled engine never reports a negative length, so the
assertion branch is unreachable through `vecColumnResult`, which is the raw
body applied to the accessor results. -/
theorem blob_decode_negative_length_aborts (buf : Option (List Nat))
    (len : Int) (v : SqlValue) :
    (len < 0 → vecColumnResultRaw buf len = none)
    ∧ (0 ≤ len → len.toNat ≤ (buf.getD []).length →
        vecColumnResultRaw buf len = some ((buf.getD []).take len.toNat)
        ∧ ((buf.getD []).take len.toNat).length = len.toNat)
    ∧ 0 ≤ sqlite3_column_bytes v
    ∧ vecColumnResult v
        = vecColumnResultRaw (sqlite3_column_blob v) (sqlite3_column_bytes v) := by
  refine ⟨?_, ?_, ?_, rfl⟩
  · intro h
    simp [vecColumnResultRaw, not_le.mpr h]
  · intro h hle
    refine ⟨by simp [vecColumnResultRaw, h], ?_⟩
    simp [List.length_take]
    omega
  · cases v <;> simp [sqlite3_column_bytes]

/-- C7 witness: length `-1` aborts; length `2` on a 3-byte buffer copies
exactly 2 bytes. -/
theorem blob_decode_negative_length_aborts_witness :
    vecColumnResultRaw (some [5, 6, 7]) (-1) = none
    ∧ vecColumnResultRaw (some [5, 6, 7]) 2 = some [5, 6] :=
  ⟨(blob_decode_negative_length_aborts (some [5, 6, 7]) (-1) SqlValue.null).1
      (by decide),
   (((blob_decode_negative_length_aborts (some [5, 6, 7]) 2 SqlValue.null).2.1
      (by decide) (by decide)).1).trans (by decide)⟩

/-- C10: a text column whose bytes (as read through the accessor's
NUL-terminated buffer) are not valid UTF-8 decodes to the empty string,
identically to a null column. -/
theorem invalid_utf8_decodes_empty (v : SqlValue) (buf : List Nat)
    (h1 : sqlite3_column_text v = some buf)
    (h2 : validUtf8 (cStrBytes buf) = false) :
    stringColumnResult v = []
    ∧ stringColumnResult v = stringColumnResult SqlValue.null := by
  have h3 : stringColumnResult v = [] := by
    simp [stringColumnResult, h1, stringColumnResultRaw, h2]
  exact ⟨h3, h3.trans rfl⟩

/-- C10 witness: the single byte 0xFF is not valid UTF-8 and decodes to the
empty string. -/
theorem invalid_utf8_decodes_empty_witness :
    stringColumnResult (SqlValue.text [255]) = []
    ∧ stringColumnResult (SqlValue.text [255]) = stringColumnResult SqlValue.null :=
  invalid_utf8_decodes_empty (SqlValue.text [255]) [255, 0] (by decide) (by decide)

/-- C3 counterexample: the string `"a\0b"` (valid UTF-8 with an interior
NUL byte) does not round-trip: `with_c_str` fails the task before the bind
reaches the engine, so the round trip produces no string at all. -/
theorem text_round_trip_interior_nul_cex :
    roundTripText ⟨[97, 0, 98], by decide⟩ 1 ≠ some [97, 0, 98] := by
  decide

/-- C3 (amended): for every text string without interior NUL bytes —
including the empty string and strings with multi-byte characters —
binding it as a text parameter and decoding the stored column back as a
string yields the original string. -/
theorem text_round_trip_no_interior_nul (s : RustStr) (col : Int)
    (h : s.bytes.contains 0 = false) :
    roundTripText s col = some s.bytes := by
  have h0 : 0 ∉ s.bytes := by simpa using h
  have hb : strBindParameter s col
      = some (BindCall.bindText col (s.bytes ++ [0]) (-1) Destructor.transient) := by
    simp [strBindParameter, h0]
  have hstore :
      bindStore (BindCall.bindText col (s.bytes ++ [0]) (-1) Destructor.transient)
        = SqlValue.text s.bytes := by
    simp [bindStore, applyBindCall, takeWhile_append_sentinel s.bytes h]
  rw [roundTripText, hb, Option.map_some', hstore]
  simp [stringColumnResult, sqlite3_column_text, stringColumnResultRaw, cStrBytes,
    takeWhile_append_sentinel s.bytes h, s.valid]

/-- C3 witness: `"hé"` (one ASCII byte followed by a two-byte UTF-8
character) round-trips. -/
theorem text_round_trip_no_interior_nul_witness :
    ([104, 195, 169] : List Nat).contains 0 = false
    ∧ roundTripText ⟨[104, 195, 169], by decide⟩ 1 = some [104, 195, 169] :=
  ⟨by decide,
   text_round_trip_no_interior_nul ⟨[104, 195, 169], by decide⟩ 1 (by decide)⟩

/-- C4: for every byte sequence (whose length fits the `c_int` cast at the
FFI boundary), binding it as a blob parameter and decoding the stored
column back as `Vec<u8>` yields a byte-for-byte equal sequence. -/
theorem blob_round_trip (b : List Nat) (col : Int) (h : b.length < 2 ^ 31) :
    roundTripBlob b col = some (some b) := by
  have hstore :
      bindStore (BindCall.bindBlob col b (asCInt b.length) Destructor.transient)
        = SqlValue.blob b := by
    simp [bindStore, applyBindCall, asCInt_of_lt b.length h]
  rw [roundTripBlob]
  simp only [sliceBindParameter, Option.map_some', hstore]
  simp [vecColumnResult, sqlite3_column_blob, sqlite3_column_bytes, vecColumnResultRaw]

/-- C4 witness: the empty sequence and `[1, 2, 3, 4]` round-trip. -/
theorem blob_round_trip_witness :
    roundTripBlob [] 1 = some (some [])
    ∧ roundTripBlob [1, 2, 3, 4] 1 = some (some [1, 2, 3, 4]) :=
  ⟨blob_round_trip [] 1 (by decide), blob_round_trip [1, 2, 3, 4] 1 (by decide)⟩

/-- C8: a text bind passes length `-1` to the engine's text primitive, a
blob bind passes the sequence's exact length (its `c_int` cast, which is
the length itself whenever it fits), and the engine stores the full string
exactly when the string has no interior NUL byte. -/
theorem bind_length_arguments (s : RustStr) (b : List Nat) (col : Int) :
    (∀ c, strBindParameter s col = some c → BindCall.lenArg c = some (-1))
    ∧ (∀ c, sliceBindParameter b col = some c →
        BindCall.lenArg c = some (asCInt b.length))
    ∧ (b.length < 2 ^ 31 → asCInt b.length = (b.length : Int))
    ∧ ((∃ c, strBindParameter s col = some c ∧ bindStore c = SqlValue.text s.bytes)
        ↔ s.bytes.contains 0 = false) := by
  refine ⟨?_, ?_, fun h => asCInt_of_lt b.length h, ?_⟩
  · intro c hc
    simp [strBindParameter] at hc
    obtain ⟨-, rfl⟩ := hc
    rfl
  · intro c hc
    simp [sliceBindParameter] at hc
    obtain rfl := hc
    rfl
  · constructor
    · rintro ⟨c, hc, -⟩
      simp [strBindParameter] at hc
      simpa using hc.1
    · intro h
      refine ⟨BindCall.bindText col (s.bytes ++ [0]) (-1) Destructor.transient, ?_, ?_⟩
      · have h0 : 0 ∉ s.bytes := by simpa using h
        simp [strBindParameter, h0]
      · simp [bindStore, applyBindCall, takeWhile_append_sentinel s.bytes h]

/-- C8 witness: the concrete bind of `"h"` carries length `-1` and stores
the full byte content; the one-byte blob `[9]` carries its exact length. -/
theorem bind_length_arguments_witness :
    BindCall.lenArg (BindCall.bindText 1 [104, 0] (-1) Destructor.transient) = some (-1)
    ∧ asCInt ([9] : List Nat).length = (([9] : List Nat).length : Int)
    ∧ (∃ c, strBindParameter ⟨[104], by decide⟩ 1 = some c
          ∧ bindStore c = SqlValue.text [104]) :=
  ⟨(bind_length_arguments ⟨[104], by decide⟩ [9] 1).1 _ (by decide),
   (bind_length_arguments ⟨[104], by decide⟩ [9] 1).2.2.1 (by decide),
   (bind_length_arguments ⟨[104], by decide⟩ [9] 1).2.2.2.mpr (by decide)⟩

/-- C9 counterexample: take the inner type `T = Option<i64>` (which has
both capabilities) and `v = None : Option<i64>`.  Encoding `Some(v)` binds
SQL null, so the optional decoder yields `None` — not `Some` of the direct
round trip of `v` (which is `Some(None)`). -/
theorem option_present_round_trip_cex :
    optionRoundTrip (optionBindParameter i64BindParameter)
        (optionColumnResult i64ColumnResult) (some none) 1
      ≠ (directRoundTrip (optionBindParameter i64BindParameter)
          (optionColumnResult i64ColumnResult) none 1).map some := by
  decide

/-- C9 (amended): for every inner type with both capabilities and every
value `v` whose encoder issues a bind call that stores a non-null value
(this excludes nested optionals whose inner value is absent, and the null
sentinel), encoding `Some(v)` and decoding with the optional decoder yields
`Some(w)` where `w` is the result of the direct (non-optional) round trip
of `v`. -/
theorem option_present_round_trip_nonnull (bind : α → Int → Option BindCall)
    (dec : SqlValue → β) (v : α) (col : Int) (c : BindCall)
    (h1 : bind v col = some c) (h2 : bindStore c ≠ SqlValue.null) :
    optionRoundTrip bind dec (some v) col = some (some (dec (bindStore c)))
    ∧ directRoundTrip bind dec v col = some (dec (bindStore c)) := by
  have ht : sqlite3_column_type (bindStore c) ≠ SQLITE_NULL := fun hh =>
    h2 ((sqlite3_column_type_eq_null_iff (bindStore c)).mp hh)
  constructor
  · have hob : optionBindParameter bind (some v) col = some c := h1
    rw [optionRoundTrip, hob, Option.map_some']
    simp [optionColumnResult, ht]
  · rw [directRoundTrip, h1]
    rfl

/-- C9 witness: `T = i64`, `v = 7`. -/
theorem option_present_round_trip_nonnull_witness :
    optionRoundTrip i64BindParameter i64ColumnResult (some 7) 1 = some (some 7)
    ∧ directRoundTrip i64BindParameter i64ColumnResult 7 1 = some 7 :=
  option_present_round_trip_nonnull i64BindParameter i64ColumnResult 7 1
    (BindCall.bindInt64 1 7) rfl (by decide)

end Rusqlite
